import Mathlib

/-!
Shallow embedding of the quiz backend in `src/server.js` (an Express app over
three Mongo collections), together with theorems about its two interesting
HTTP handlers, `GET /questions/:topic` and `POST /submit`.

The document stores are modelled as explicit lists inside a `DB` record; each
handler becomes a pure function from the `DB` and the request to the response
(and, for `POST /submit`, the updated response store).  Mongo's
case-insensitive anchored regex match `{$regex: new RegExp(^t$, "i")}` is
modelled as equality of lower-cased strings, and `Math.round` on the
non-negative quantity `score/total*100` as exact round-half-up on rationals,
computed in `Nat`.
-/

namespace Aptitude

/-- The `Topic` model: `{ name: String (unique, trimmed) }` (server.js:35). -/
structure Topic where
  name : String
  deriving Repr, DecidableEq

/-- The `Question` model (server.js:39): topic reference, prompt, options,
correct answer text, plus Mongoose's internal version key `__v`. -/
structure Question where
  _id : String
  topic : String
  question : String
  options : List String
  answer : String
  __v : Nat
  deriving Repr, DecidableEq

/-- One per-question entry of `responseAnswers` (server.js:147-152). -/
structure AnswerRecord where
  question : String
  selected : String
  correct : Bool
  correctAnswer : String
  deriving Repr, DecidableEq

/-- The `Response` model (server.js:46): one persisted submission. -/
structure ResponseDoc where
  user : String
  topic : String
  score : Nat
  answers : List AnswerRecord
  deriving Repr, DecidableEq

/-- The three document collections the handlers touch. -/
structure DB where
  topics : List Topic
  questions : List Question
  responses : List ResponseDoc
  deriving Repr, DecidableEq

/-- Lower-casing a string, computed character by character (kernel-reducible
rendering of `toLowerCase`). -/
def lowerStr (s : String) : String :=
  ⟨s.data.map Char.toLower⟩

/-- Stripping leading and trailing whitespace, character by character
(kernel-reducible rendering of JavaScript's `String.prototype.trim`;
approximate: it strips only space, tab, CR and LF, while JS `trim` also
strips further Unicode whitespace such as VT, FF and NBSP). -/
def trimStr (s : String) : String :=
  ⟨((s.data.dropWhile Char.isWhitespace).reverse.dropWhile Char.isWhitespace).reverse⟩

/-- The anchored case-insensitive topic match of server.js:87, 98, 128,
modelled as ASCII lower-case string equality.  The code actually interpolates
the raw string unescaped into `new RegExp(^...$, "i")`, so this model is
faithful only when the interpolated string contains no regex metacharacters;
`jsAnchoredCiTest` below gives the regex semantics on a small pattern
fragment and exhibits where the two disagree. -/
def ciEq (a b : String) : Bool :=
  lowerStr a == lowerStr b

/-- An atom of the regex fragment: the wildcard `.` or a literal character. -/
inductive RAtom where
  | dot
  | lit (c : Char)
  deriving Repr, DecidableEq

/-- The JS regex metacharacters; a raw string containing any of them (other
than `.` and a well-placed `*`) is outside the modelled fragment. -/
def regexMeta : List Char :=
  ['.', '*', '+', '?', '(', ')', '[', ']', '\x7b', '\x7d', '^', '$', '|', '\\']

/-- One pattern character as an atom: `.` is the wildcard, metacharacters are
out of fragment, anything else is a literal. -/
def charAtom (c : Char) : Option RAtom :=
  if c = '.' then some RAtom.dot
  else if regexMeta.contains c then none
  else some (RAtom.lit c)

/-- Parse a raw interpolated string into a sequence of atoms, each with a
`*`-repetition flag; `none` when the string leaves the fragment (there the
`RegExp` constructor may throw, e.g. on a leading `*` or an unmatched `(`,
which the handlers' catch turns into a 500). -/
def parseRegex : List Char → Option (List (RAtom × Bool))
  | [] => some []
  | c :: '*' :: rest =>
    match charAtom c with
    | none => none
    | some a => (parseRegex rest).map (fun ps => (a, true) :: ps)
  | c :: rest =>
    match charAtom c with
    | none => none
    | some a => (parseRegex rest).map (fun ps => (a, false) :: ps)

/-- Whether an atom matches one character under the `"i"` flag: `.` matches
everything but line terminators; a literal matches up to case. -/
def atomMatch : RAtom → Char → Bool
  | RAtom.dot, c =>
    !(c == '\n' || c == '\r' || c.toNat == 0x2028 || c.toNat == 0x2029)
  | RAtom.lit l, c => l.toLower == c.toLower

/-- Backtracking matcher for the parsed pattern against the whole character
list (the pattern is `^`/`$`-anchored); structural on an explicit fuel so
that concrete instances evaluate in the kernel. -/
def rmatch : Nat → List (RAtom × Bool) → List Char → Bool
  | 0, _, _ => false
  | _ + 1, [], cs => cs.isEmpty
  | _ + 1, (_, false) :: _, [] => false
  | fuel + 1, (a, false) :: ps, c :: cs => atomMatch a c && rmatch fuel ps cs
  | fuel + 1, (a, true) :: ps, cs =>
    rmatch fuel ps cs ||
      (match cs with
       | [] => false
       | c :: cs' => atomMatch a c && rmatch fuel ((a, true) :: ps) cs')

/-- `new RegExp("^" + raw + "$", "i").test s` (server.js:87, 98, 128) on the
modelled fragment: `some` the match outcome, `none` when `raw` leaves the
fragment.  Each matcher step consumes a pattern item or a character, so the
chosen fuel is sufficient. -/
def jsAnchoredCiTest (raw s : String) : Option Bool :=
  (parseRegex raw.data).map
    (fun ps => rmatch (ps.length + s.data.length + 1) ps s.data)

/-- The fixed letter table `['A', 'B', 'C', 'D']` (server.js:141). -/
def letterKeys : List String := ["A", "B", "C", "D"]

/-- `q.options.findIndex(opt => opt === q.answer)` (server.js:140); `none`
models JavaScript's `-1`. -/
def correctOptionIndex (q : Question) : Option Nat :=
  q.options.findIdx? (fun opt => opt == q.answer)

/-- `['A','B','C','D'][correctOptionIndex]` (server.js:141); `none` models
`undefined`, reached when the answer is absent or its index exceeds 3. -/
def correctOptionKey (q : Question) : Option String :=
  (correctOptionIndex q).bind (fun i => letterKeys.get? i)

/-- `answers[q._id] || ''` (server.js:137): the submitted letter looked up by
question id, defaulting to the empty string. -/
def userAnswerFor (answers : List (String × String)) (qid : String) : String :=
  (answers.lookup qid).getD ""

/-- `userAnswer === correctOptionKey` (server.js:144): a strict, hence
case-sensitive, comparison; a string never equals `undefined`. -/
def isCorrect (q : Question) (userAnswer : String) : Bool :=
  match correctOptionKey q with
  | some k => userAnswer == k
  | none => false

/-- The record built for one question inside `questions.map` (server.js:147). -/
def gradeRecord (answers : List (String × String)) (q : Question) : AnswerRecord :=
  let ua := userAnswerFor answers q._id
  { question := q.question
    selected := ua
    correct := isCorrect q ua
    correctAnswer := q.answer }

/-- The `questions.map` loop with its `score` accumulator (server.js:135-153):
returns the final score together with `responseAnswers`. -/
def scoreRecords (answers : List (String × String)) : List Question → Nat × List AnswerRecord
  | [] => (0, [])
  | q :: qs =>
    let ua := userAnswerFor answers q._id
    let rest := scoreRecords answers qs
    ((if isCorrect q ua then rest.1 + 1 else rest.1), gradeRecord answers q :: rest.2)

/-- `Math.round((score / questions.length) * 100)` (server.js:167), as exact
round-half-up: `⌊(100*score/total) + 1/2⌋ = (200*score + total) / (2*total)`. -/
def percentage (score total : Nat) : Nat :=
  (200 * score + total) / (2 * total)

/-- A question document as returned by `.select('-__v')` (server.js:99): the
version key stripped. -/
structure QuestionOut where
  _id : String
  topic : String
  question : String
  options : List String
  answer : String
  deriving Repr, DecidableEq

/-- Dropping the `__v` field from a stored question. -/
def stripVersionKey (q : Question) : QuestionOut :=
  { _id := q._id
    topic := q.topic
    question := q.question
    options := q.options
    answer := q.answer }

/-- `Topic.find().distinct('name')` (server.js:93): the stored topic names,
deduplicated. -/
def distinctNames (topics : List Topic) : List String :=
  (topics.map Topic.name).dedup

/-- `Question.find({topic: {$regex: new RegExp(^t$, "i")}})` (server.js:97,
127): all stored questions whose `topic` case-insensitively equals `t`. -/
def matchingQuestions (db : DB) (t : String) : List Question :=
  db.questions.filter (fun q => ciEq q.topic t)

/-- Outcome of `GET /questions/:topic`; the 500 infrastructure branch has no
counterpart because the store never fails in the model. -/
inductive QuestionsRes where
  | topicNotFound (suggestions : List String)
  | noQuestionsFound (topic : String)
  | ok (questions : List QuestionOut)
  deriving Repr, DecidableEq

/-- The `GET /questions/:topic` handler (server.js:81-116), on the
percent-decoded path parameter. -/
def getQuestions (db : DB) (topicRaw : String) : QuestionsRes :=
  let topicParam := trimStr topicRaw
  match db.topics.find? (fun t => ciEq t.name topicParam) with
  | none => .topicNotFound (distinctNames db.topics)
  | some topicExists =>
    let questions := matchingQuestions db topicExists.name
    if questions.isEmpty then
      .noQuestionsFound topicExists.name
    else
      .ok (questions.map stripVersionKey)

/-- The parsed body of `POST /submit`; `none` models an absent field. -/
structure SubmitBody where
  user : Option String
  topic : Option String
  answers : Option (List (String × String))
  deriving Repr, DecidableEq

/-- JavaScript truthiness of an optional string: `!x` holds for a missing
field and for the empty string. -/
def truthyStr : Option String → Bool
  | none => false
  | some s => s != ""

/-- Outcome of `POST /submit`. -/
inductive SubmitRes where
  | missingFields
  | noQuestionsFound
  | ok (score total percentage : Nat) (results : List AnswerRecord)
  deriving Repr, DecidableEq

/-- The `POST /submit` handler (server.js:119-177): validation, the
case-insensitive question fetch, scoring, persisting one `Response`, and the
success body.  Returns the HTTP outcome and the response store afterwards. -/
def submit (db : DB) (body : SubmitBody) : SubmitRes × List ResponseDoc :=
  if truthyStr body.user && truthyStr body.topic && body.answers.isSome then
    let user := body.user.getD ""
    let topic := body.topic.getD ""
    let answers := body.answers.getD []
    let questions := matchingQuestions db topic
    if questions.isEmpty then
      (.noQuestionsFound, db.responses)
    else
      let sr := scoreRecords answers questions
      let response : ResponseDoc :=
        { user := user, topic := topic, score := sr.1, answers := sr.2 }
      (.ok sr.1 questions.length (percentage sr.1 questions.length) sr.2,
        db.responses ++ [response])
  else
    (.missingFields, db.responses)

/-! ## Helper lemmas -/

theorem ciEq_iff {a b : String} : ciEq a b = true ↔ lowerStr a = lowerStr b := by
  simp [ciEq]

theorem ciEq_congr {a b b' : String} (h : lowerStr b = lowerStr b') :
    ciEq a b = ciEq a b' := by
  simp [ciEq, h]

theorem ciEq_symm {a b : String} : ciEq a b = ciEq b a := by
  unfold ciEq
  exact Bool.beq_comm

theorem isCorrect_eq_beq (q : Question) (ua : String) :
    isCorrect q ua = (correctOptionKey q == some ua) := by
  unfold isCorrect
  cases correctOptionKey q with
  | none => rfl
  | some k =>
    show (ua == k) = (k == ua)
    exact Bool.beq_comm

/-- The scoring loop computes the count of questions whose correct letter
matches the submitted one, and one `AnswerRecord` per question, in order. -/
theorem scoreRecords_eq (a : List (String × String)) (qs : List Question) :
    scoreRecords a qs =
      (qs.countP (fun q => correctOptionKey q == some (userAnswerFor a q._id)),
        qs.map (gradeRecord a)) := by
  induction qs with
  | nil => rfl
  | cons q qs ih =>
    simp only [scoreRecords, ih, List.countP_cons, List.map_cons, isCorrect_eq_beq]
    by_cases h : (correctOptionKey q == some (userAnswerFor a q._id)) = true
    · simp [h]
    · simp [h]

/-! ## Claim theorems -/

/-- C1: on every `POST /submit` with all three fields present and truthy and a
non-empty matching question set, the handler looks each submitted letter up by
question id with default `""`, compares it (case-sensitively, via string
equality) against the letter obtained by mapping the index of `answer` inside
`options` through `['A','B','C','D']`, and responds 200 with `score` the count
of matches, `total` the number of questions, `percentage` the rounded
`score/total*100`, and `results` the per-question records. -/
theorem submit_success_spec (db : DB) (body : SubmitBody)
    (u t : String) (a : List (String × String))
    (hu : body.user = some u) (hune : u ≠ "")
    (ht : body.topic = some t) (htne : t ≠ "")
    (ha : body.answers = some a)
    (hq : matchingQuestions db t ≠ []) :
    (submit db body).1 =
      SubmitRes.ok
        ((matchingQuestions db t).countP
          (fun q => correctOptionKey q == some (userAnswerFor a q._id)))
        (matchingQuestions db t).length
        (percentage
          ((matchingQuestions db t).countP
            (fun q => correctOptionKey q == some (userAnswerFor a q._id)))
          (matchingQuestions db t).length)
        ((matchingQuestions db t).map (gradeRecord a)) := by
  unfold submit
  rw [hu, ht, ha]
  simp only [truthyStr, Option.isSome_some, Bool.and_true, Option.getD_some]
  rw [if_pos]
  · rw [if_neg (by simpa using hq)]
    rw [scoreRecords_eq]
  · simp [bne_iff_ne, hune, htne]

/-- Witness for C1 at a concrete database and request. -/
theorem submit_success_spec_witness :
    (submit
        { topics := [{ name := "Math" }]
          questions := [{ _id := "q1", topic := "Math", question := "2+2?",
                          options := ["2", "3", "4", "5"], answer := "4", __v := 0 }]
          responses := [] }
        { user := some "alice", topic := some "Math",
          answers := some [("q1", "C")] }).1 =
      SubmitRes.ok 1 1 100
        [{ question := "2+2?", selected := "C", correct := true, correctAnswer := "4" }] := by
  refine (submit_success_spec _ _ "alice" "Math" [("q1", "C")] rfl (by decide) rfl
    (by decide) rfl (by decide)).trans ?_
  decide

/-- C2: for the one-question Math topic with options `["2","3","4","5"]` and
answer `"4"`, submitting `"C"` scores 1 of 1 with percentage 100, and
submitting `"A"` scores 0 with percentage 0. -/
theorem submit_math_example :
    (submit
        { topics := [{ name := "Math" }]
          questions := [{ _id := "q1", topic := "Math", question := "2+2?",
                          options := ["2", "3", "4", "5"], answer := "4", __v := 0 }]
          responses := [] }
        { user := some "u", topic := some "Math",
          answers := some [("q1", "C")] }).1 =
      SubmitRes.ok 1 1 100
        [{ question := "2+2?", selected := "C", correct := true, correctAnswer := "4" }]
    ∧ (submit
        { topics := [{ name := "Math" }]
          questions := [{ _id := "q1", topic := "Math", question := "2+2?",
                          options := ["2", "3", "4", "5"], answer := "4", __v := 0 }]
          responses := [] }
        { user := some "u", topic := some "Math",
          answers := some [("q1", "A")] }).1 =
      SubmitRes.ok 0 1 0
        [{ question := "2+2?", selected := "A", correct := false, correctAnswer := "4" }] := by
  constructor <;> decide

/-- C3: the fetch of `GET /questions/:topic` is not the case-insensitively
equal set: for the stored name `Node.js` the code's unescaped anchored regex
(server.js:98) also accepts the topic `NodeXjs`, which case-insensitive
equality rejects, so a store holding such a question falsifies the claim at
that input. -/
theorem questions_fetch_regex_injection :
    jsAnchoredCiTest "Node.js" "NodeXjs" = some true
    ∧ jsAnchoredCiTest "Node.js" "node.js" = some true
    ∧ ciEq "NodeXjs" "Node.js" = false := by
  refine ⟨by decide, by decide, by decide⟩

/-- C4: when a question's `answer` does not occur among its `options`, the
computed correct letter is `undefined` and every submitted answer is scored
incorrect; the computation is total, so no error is raised. -/
theorem answer_absent_always_incorrect (q : Question) (ua : String)
    (h : q.answer ∉ q.options) :
    correctOptionKey q = none ∧ isCorrect q ua = false := by
  have hidx : correctOptionIndex q = none := by
    unfold correctOptionIndex
    rw [List.findIdx?_eq_none_iff]
    intro x hx
    exact beq_eq_false_iff_ne.mpr (fun e => h (e ▸ hx))
  have hkey : correctOptionKey q = none := by
    unfold correctOptionKey
    rw [hidx]
    rfl
  refine ⟨hkey, ?_⟩
  unfold isCorrect
  rw [hkey]

/-- Witness for C4: an answer text absent from the options list. -/
theorem answer_absent_always_incorrect_witness :
    correctOptionKey { _id := "q9", topic := "T", question := "p",
                       options := ["x", "y"], answer := "z", __v := 0 } = none
    ∧ isCorrect { _id := "q9", topic := "T", question := "p",
                  options := ["x", "y"], answer := "z", __v := 0 } "A" = false :=
  answer_absent_always_incorrect _ "A" (by decide)

/-- C5: the unknown-topic 404 is not reached where the claim requires it:
the request topic `.*` case-insensitively equals no stored topic name, yet
the code's unescaped anchored regex (server.js:87) accepts every stored name
(here `Math`), so `Topic.findOne` succeeds and no `topicNotFound` response
with the suggestions list is produced at that input. -/
theorem topic_lookup_regex_injection :
    jsAnchoredCiTest ".*" "Math" = some true
    ∧ (∀ t ∈ [Topic.mk "Math"], ciEq t.name (trimStr ".*") = false) := by
  refine ⟨by decide, by decide⟩

/-- C6: when `user`, `topic` or `answers` is absent from the body,
`POST /submit` answers 400 `Missing required fields` and writes nothing; in
particular the empty body does. -/
theorem submit_missing_fields (db : DB) (body : SubmitBody)
    (h : body.user = none ∨ body.topic = none ∨ body.answers = none) :
    submit db body = (SubmitRes.missingFields, db.responses) := by
  unfold submit
  rcases h with h | h | h <;> rw [h] <;> simp [truthyStr]

/-- Witness for C6: the empty body `\x7b\x7d` against a concrete store. -/
theorem submit_missing_fields_witness :
    submit
        { topics := [{ name := "Math" }]
          questions := [{ _id := "q1", topic := "Math", question := "2+2?",
                          options := ["2", "3", "4", "5"], answer := "4", __v := 0 }]
          responses := [] }
        { user := none, topic := none, answers := none } =
      (SubmitRes.missingFields, []) :=
  submit_missing_fields _ _ (Or.inl rfl)

/-- C7: `POST /submit` with topic `.*` has zero case-insensitively matching
questions in a store whose only question is on `Math`, yet the code's
unescaped anchored regex (server.js:128) accepts that question's topic, so
the fetch is non-empty and the handler answers 200 instead of the claimed
404. -/
theorem submit_dot_star_regex_injection :
    matchingQuestions
        { topics := [{ name := "Math" }]
          questions := [{ _id := "q1", topic := "Math", question := "2+2?",
                          options := ["2", "3", "4", "5"], answer := "4", __v := 0 }]
          responses := [] } ".*" = []
    ∧ jsAnchoredCiTest ".*" "Math" = some true := by
  refine ⟨by decide, by decide⟩

/-- C8: the computed score depends only on the submitted mapping (as a
key-to-letter function) and on the questions' ids, options and answers: two
scoring runs over question lists agreeing on those fields, with lookup-equal
answer maps, produce the same score. -/
theorem scoring_deterministic (qs₁ qs₂ : List Question) (a₁ a₂ : List (String × String))
    (hq : qs₁.map (fun q => (q._id, q.options, q.answer))
        = qs₂.map (fun q => (q._id, q.options, q.answer)))
    (ha : ∀ k, a₁.lookup k = a₂.lookup k) :
    (scoreRecords a₁ qs₁).1 = (scoreRecords a₂ qs₂).1 := by
  induction qs₁ generalizing qs₂ with
  | nil =>
    cases qs₂ with
    | nil => rfl
    | cons q qs => simp at hq
  | cons q qs ih =>
    cases qs₂ with
    | nil => simp at hq
    | cons q' qs' =>
      simp only [List.map_cons, List.cons.injEq, Prod.mk.injEq] at hq
      obtain ⟨⟨hid, hopt, hans⟩, htail⟩ := hq
      have hua : userAnswerFor a₁ q._id = userAnswerFor a₂ q'._id := by
        unfold userAnswerFor
        rw [hid, ha]
      have hic : isCorrect q (userAnswerFor a₁ q._id)
          = isCorrect q' (userAnswerFor a₂ q'._id) := by
        rw [hua]
        unfold isCorrect correctOptionKey correctOptionIndex
        rw [hopt, hans]
      simp only [scoreRecords]
      rw [ih qs' htail, hic]

/-- Witness for C8: the same map scored against two stores that differ only
in prompt text, topic case and version key. -/
theorem scoring_deterministic_witness :
    (scoreRecords [("q1", "B")]
        [{ _id := "q1", topic := "Math", question := "one",
           options := ["a", "b"], answer := "b", __v := 0 }]).1
      = (scoreRecords [("q1", "B")]
        [{ _id := "q1", topic := "MATH", question := "two",
           options := ["a", "b"], answer := "b", __v := 5 }]).1 :=
  scoring_deterministic _ _ _ _ (by decide) (fun _ => rfl)

/-- C9: every 200 response of `POST /submit` carries a positive `total`: the
divisor in the percentage computation, the fetched question count, is at
least 1 because the empty case is answered 404 before scoring. -/
theorem submit_total_positive (db : DB) (body : SubmitBody)
    (s tot pc : Nat) (rs : List AnswerRecord)
    (h : (submit db body).1 = SubmitRes.ok s tot pc rs) :
    0 < tot := by
  unfold submit at h
  by_cases hc : (truthyStr body.user && truthyStr body.topic && body.answers.isSome) = true
  · rw [if_pos hc] at h
    dsimp only at h
    by_cases he : (matchingQuestions db (body.topic.getD "")).isEmpty = true
    · rw [if_pos he] at h
      simp at h
    · rw [if_neg he] at h
      dsimp only at h
      injection h with h1 h2 h3 h4
      rw [← h2]
      have hne : matchingQuestions db (body.topic.getD "") ≠ [] := by
        simpa using he
      exact List.length_pos.mpr hne
  · rw [if_neg hc] at h
    simp at h

/-- Witness for C9 at a concrete success response. -/
theorem submit_total_positive_witness :
    (submit
          { topics := [{ name := "Math" }]
            questions := [{ _id := "q1", topic := "Math", question := "2+2?",
                            options := ["2", "3", "4", "5"], answer := "4", __v := 0 }]
            responses := [] }
          { user := some "u", topic := some "Math",
            answers := some [("q1", "C")] }).1 =
        SubmitRes.ok 1 1 100
          [{ question := "2+2?", selected := "C", correct := true, correctAnswer := "4" }]
    ∧ 0 < 1 :=
  ⟨by decide,
   submit_total_positive
     { topics := [{ name := "Math" }]
       questions := [{ _id := "q1", topic := "Math", question := "2+2?",
                       options := ["2", "3", "4", "5"], answer := "4", __v := 0 }]
       responses := [] }
     { user := some "u", topic := some "Math", answers := some [("q1", "C")] }
     1 1 100
     [{ question := "2+2?", selected := "C", correct := true, correctAnswer := "4" }]
     (by decide)⟩

/-- C10: one request writes at most one `Response`, and only on the success
path: whenever the outcome is not a 200, the response store is unchanged, and
on a 200 exactly one document is appended. -/
theorem submit_persists_only_on_success (db : DB) (body : SubmitBody) :
    ((∀ s tot pc rs, (submit db body).1 ≠ SubmitRes.ok s tot pc rs) →
        (submit db body).2 = db.responses)
    ∧ (∀ s tot pc rs, (submit db body).1 = SubmitRes.ok s tot pc rs →
        ∃ r, (submit db body).2 = db.responses ++ [r]) := by
  unfold submit
  by_cases hc : (truthyStr body.user && truthyStr body.topic && body.answers.isSome) = true
  · rw [if_pos hc]
    dsimp only
    by_cases he : (matchingQuestions db (body.topic.getD "")).isEmpty = true
    · rw [if_pos he]
      exact ⟨fun _ => rfl, fun s tot pc rs h => absurd h (by simp)⟩
    · rw [if_neg he]
      exact ⟨fun hno => absurd rfl (hno _ _ _ _), fun s tot pc rs _ => ⟨_, rfl⟩⟩
  · rw [if_neg hc]
    exact ⟨fun _ => rfl, fun s tot pc rs h => absurd h (by simp)⟩

/-- Witness for C10: a successful submission appends exactly one response
document to the previously empty store. -/
theorem submit_persists_only_on_success_witness :
    ∃ r, (submit
        { topics := [{ name := "Math" }]
          questions := [{ _id := "q1", topic := "Math", question := "2+2?",
                          options := ["2", "3", "4", "5"], answer := "4", __v := 0 }]
          responses := [] }
        { user := some "bob", topic := some "Math",
          answers := some [("q1", "C")] }).2 = [] ++ [r] :=
  (submit_persists_only_on_success _ _).2 1 1 100
    [{ question := "2+2?", selected := "C", correct := true, correctAnswer := "4" }]
    (by decide)

end Aptitude
